import Mathlib

/-!
Verification of the hybrid retrieval pipeline (`retrieval.py`, `scripts.py`)
of the neo4j_implementation repository, as a shallow embedding in Lean 4.

External collaborators (embedding provider, Qdrant vector store client,
Neo4j driver, Mistral chat client) are modelled as functions supplied in an
environment record; a Python call that may raise is a function returning
`Except`, and an exception propagating out of a Python function is an
`Except.error` result tagged with the stage of the pipeline that raised it.
Python values whose runtime type matters (the two context blocks returned
by `retrieve`, which are a `str` and a `list`) are modelled by a small
dynamic-value type `PyVal`.
-/

/-- Runtime value of one context block as Python produces it: either a
string (`str`) or a list of strings (`list`). -/
inductive PyVal where
  | str : String → PyVal
  | list : List String → PyVal
deriving DecidableEq, Repr

/-- Whether a Python runtime value is a string. -/
def PyVal.isStr : PyVal → Bool
  | .str _ => true
  | .list _ => false

/-- One search hit returned by the Qdrant client: the code only reads
`result.payload["text"]`, so the payload is modelled by that text. -/
structure QdrantPoint where
  payloadText : String
deriving DecidableEq, Repr

/-- One chat message, as built in `generate_answer_with_mistral`. -/
structure ChatMessage where
  role : String
  content : String
deriving DecidableEq, Repr

/-- Request sent to `client.chat.complete_async`. -/
structure ChatRequest where
  model : String
  messages : List ChatMessage
  temperature : Rat
  maxTokens : Nat
deriving DecidableEq, Repr

/-- Response of the chat completion backend: the code only reads
`response.choices[0].message.content`. -/
structure ChatResponse where
  content : String
deriving DecidableEq, Repr

/-- Exception propagating out of `retrieve`, tagged with the call that
raised it (the embedding call, the Qdrant search, or the Neo4j query);
the tag carries the upstream cause. -/
inductive RetrieveError where
  | embeddingFailure : String → RetrieveError
  | vectorSearchFailure : String → RetrieveError
  | graphQueryFailure : String → RetrieveError
deriving DecidableEq, Repr

/-- Exception propagating out of `generate_answer_with_mistral`, carrying
the upstream cause of the failed chat completion call. -/
inductive GenError where
  | generationFailure : String → GenError
deriving DecidableEq, Repr

/-- Environment of external collaborators used by the pipeline:
`embed` is `embeddings.embed_query`, `vsearch` is `qdrant_client.search`
(query vector and limit), `graph` is the state of the Neo4j store — the
list of `Chunk` node texts, or a connection/query failure — and
`complete` is `client.chat.complete_async`. -/
structure RagEnv where
  embed : String → Except String (List Rat)
  vsearch : List Rat → Nat → Except String (List QdrantPoint)
  graph : Except String (List String)
  complete : ChatRequest → Except String ChatResponse

/-- Boolean substring containment on character lists: `containsSub n h`
is true when `n` occurs contiguously inside `h`. -/
def containsSub (needle : List Char) : List Char → Bool
  | [] => needle.isEmpty
  | c :: t => needle.isPrefixOf (c :: t) || containsSub needle t

/-- Predicate of the Cypher query
`WHERE toLower(c.text) CONTAINS toLower($query)`: both strings are
lowercased character by character and containment is checked. -/
def containsCI (text query : String) : Bool :=
  containsSub (query.data.map Char.toLower) (text.data.map Char.toLower)

/-- Semantics of the one Cypher read query issued by `retrieve`:
`MATCH (c:Chunk) WHERE toLower(c.text) CONTAINS toLower($query)
RETURN c.text AS text LIMIT 5` over a store holding chunk texts
`chunks`. -/
def graphQuery (chunks : List String) (query : String) : List String :=
  (chunks.filter (fun t => containsCI t query)).take 5

/-- Embedding of `retrieval.retrieve` (retrieval.py lines 26–60):
embed the query, search Qdrant with limit 5, join the payload texts with
newlines, run the Cypher containment query against Neo4j, and return the
joined string together with the list of Cypher result texts. There is no
exception handling in the source, so an error from any call propagates. -/
def retrieve (env : RagEnv) (query : String) :
    Except RetrieveError (PyVal × PyVal) :=
  match env.embed query with
  | .error e => .error (.embeddingFailure e)
  | .ok queryEmbedding =>
    match env.vsearch queryEmbedding 5 with
    | .error e => .error (.vectorSearchFailure e)
    | .ok qdrantResults =>
      let relevantTexts := qdrantResults.map (fun r => r.payloadText)
      let allRelevantTexts := String.intercalate "\n" relevantTexts
      match env.graph with
      | .error e => .error (.graphQueryFailure e)
      | .ok chunks =>
        let cypherTexts := graphQuery chunks query
        .ok (PyVal.str allRelevantTexts, PyVal.list cypherTexts)

/-- System prompt literal of `generate_answer_with_mistral`. -/
def systemPrompt : String :=
  "You are a helpful assistant that answers questions regarding a data science textbook."

/-- User prompt f-string of `generate_answer_with_mistral`. -/
def userPrompt (query milvusContext neo4jContext : String) : String :=
  "Based on the following contexts extracted from similar questions and graph data:\n---\nVector DB context:\n"
    ++ milvusContext
    ++ "\n---\nNeo4j context:\n"
    ++ neo4jContext
    ++ "\n---\nQuestion:\n"
    ++ query
    ++ "\n\nProvide a concise, helpful answer."

/-- Semantics of Python `str.strip()`: remove leading and trailing
whitespace characters. -/
def pyStrip (s : String) : String :=
  ⟨((s.data.dropWhile Char.isWhitespace).reverse.dropWhile Char.isWhitespace).reverse⟩

/-- Request that `generate_answer_with_mistral` sends to the backend. -/
def mistralRequest (query milvusContext neo4jContext : String)
    (model : String) (temperature : Rat) (maxTokens : Nat) : ChatRequest :=
  { model := model
  , messages :=
      [ { role := "system", content := systemPrompt }
      , { role := "user", content := userPrompt query milvusContext neo4jContext } ]
  , temperature := temperature
  , maxTokens := maxTokens }

/-- Embedding of `retrieval.generate_answer_with_mistral`
(retrieval.py lines 62–113): build the two-role prompt, call the chat
completion backend once, and on success return the stripped response
content; an error from the backend call propagates. -/
def generate_answer_with_mistral (env : RagEnv) (query milvusContext neo4jContext : String)
    (model : String) (temperature : Rat) (maxTokens : Nat) : Except GenError String :=
  match env.complete (mistralRequest query milvusContext neo4jContext model temperature maxTokens) with
  | .error e => .error (.generationFailure e)
  | .ok response => .ok (pyStrip response.content)

/-- Default model argument of `generate_answer_with_mistral`. -/
def defaultModel : String := "mistral-small-latest"

/-- Default temperature argument of `generate_answer_with_mistral`. -/
def defaultTemperature : Rat := 3 / 10

/-- Default max_tokens argument of `generate_answer_with_mistral`. -/
def defaultMaxTokens : Nat := 300

/-- Call of `generate_answer_with_mistral` with every optional argument
left at its default, as `scripts.py` line 45 performs it. -/
def generateAnswerDefault (env : RagEnv) (query milvusContext neo4jContext : String) :
    Except GenError String :=
  generate_answer_with_mistral env query milvusContext neo4jContext
    defaultModel defaultTemperature defaultMaxTokens

/-- Embedding of the `retrieve` wrapper of `scripts.py` lines 43–46. The
`async def retrieve` statement rebinds the module-global name `retrieve`
that line 8 imported from `retrieval`, so the call `await retrieve(query)`
in its own body resolves to the wrapper itself. The recursion is modelled
with explicit fuel (`none` = the Python recursion limit is hit before a
value is produced), and everything after the self-call — unpacking the
result into the two contexts and calling
`generate_answer_with_mistral` — is abstracted as an arbitrary
continuation `k`, applied to whatever the self-call returns. -/
def scriptsRetrieve (env : RagEnv) (k : String → Option String) :
    Nat → String → Option String
  | 0, _ => none
  | Nat.succ fuel, query => (scriptsRetrieve env k fuel query).bind k

/-! Helper lemmas about the graph query and the containment predicate. -/

/-- The empty character list is contained in every character list. -/
theorem containsSub_nil (h : List Char) : containsSub [] h = true := by
  cases h with
  | nil => rfl
  | cons c t => simp [containsSub, List.isPrefixOf]

/-- Every chunk text contains the empty query case-insensitively. -/
theorem containsCI_empty_query (t : String) : containsCI t "" = true := by
  have h : ("" : String).data.map Char.toLower = [] := by decide
  simp [containsCI, h, containsSub_nil]

/-- The Cypher query returns at most 5 texts. -/
theorem graphQuery_length_le (cs : List String) (q : String) :
    (graphQuery cs q).length ≤ 5 := by
  simp only [graphQuery, List.length_take]
  exact min_le_left _ _

/-- Every text returned by the Cypher query contains the query
case-insensitively and is a chunk text of the store. -/
theorem graphQuery_mem (cs : List String) (q t : String)
    (ht : t ∈ graphQuery cs q) : containsCI t q = true ∧ t ∈ cs := by
  have h1 : t ∈ cs.filter (fun u => containsCI u q) := List.mem_of_mem_take ht
  have h2 := List.mem_filter.mp h1
  exact ⟨h2.2, h2.1⟩

/-- With an empty query string the Cypher filter keeps every chunk. -/
theorem graphQuery_empty_query (cs : List String) :
    graphQuery cs "" = cs.take 5 := by
  unfold graphQuery
  have h : cs.filter (fun t => containsCI t "") = cs :=
    List.filter_eq_self.mpr (fun a _ => containsCI_empty_query a)
  rw [h]

/-- Environment builder for concrete test stores: constant answers for the
embedding call, the vector search and the graph query. -/
def mkEnv (embedRes : Except String (List Rat))
    (vres : Except String (List QdrantPoint))
    (gres : Except String (List String)) : RagEnv :=
  { embed := fun _ => embedRes
  , vsearch := fun _ _ => vres
  , graph := gres
  , complete := fun _ => .ok { content := " ok " } }

/-- C1 counterexample: with the graph store reachable and holding a
matching chunk, a vector search failure does not degrade only the vector
context block — `retrieve` propagates the exception, returns no pair at
all, and the whole retrieval aborts. -/
theorem retrieve_vector_failure_aborts_cex :
    retrieve (mkEnv (.ok [1]) (.error "connection refused")
        (.ok ["regression is a method"])) "regression"
      = .error (.vectorSearchFailure "connection refused") ∧
    (retrieve (mkEnv (.ok [1]) (.error "connection refused")
        (.ok ["regression is a method"])) "regression").toOption = none :=
  ⟨rfl, rfl⟩

/-- C1 (amended): only the zero-results half of the claim holds. When the
embedding call and both store calls succeed, a vector search returning no
results degrades only `vectorContext` to the empty string, and a graph
query matching no chunk degrades only `graphContext` to the empty list;
a store call that raises, however, aborts the whole retrieval (see the
counterexample). -/
theorem retrieve_empty_results_degrade (env : RagEnv) (q : String) (v : List Rat)
    (rs : List QdrantPoint) (cs : List String)
    (hE : env.embed q = .ok v) (hV : env.vsearch v 5 = .ok rs)
    (hG : env.graph = .ok cs) :
    (rs = [] → retrieve env q = .ok (.str "", .list (graphQuery cs q))) ∧
    (graphQuery cs q = [] →
      retrieve env q
        = .ok (.str (String.intercalate "\n" (rs.map (fun r => r.payloadText))),
               .list [])) := by
  constructor
  · intro hrs
    subst hrs
    simp [retrieve, hE, hV, hG]
    rfl
  · intro hgq
    simp [retrieve, hE, hV, hG, hgq]

/-- C1 witness: a concrete environment with an empty vector search result
and a non-matching graph store, on which both degradations apply. -/
theorem retrieve_empty_results_degrade_witness :
    retrieve (mkEnv (.ok [1]) (.ok []) (.ok ["alpha"])) "xyzzynonsense"
      = .ok (.str "", .list []) := by
  have h := (retrieve_empty_results_degrade
    (mkEnv (.ok [1]) (.ok []) (.ok ["alpha"])) "xyzzynonsense"
    [1] [] ["alpha"] rfl rfl rfl).1 rfl
  have hg : graphQuery ["alpha"] "xyzzynonsense" = [] := by decide
  rw [hg] at h
  exact h

/-- C2 counterexample: with the embedding call and both stores succeeding,
`retrieve` does not return two strings — the second component of the pair
is a Python list of strings, not a string. -/
theorem retrieve_second_component_not_string_cex :
    retrieve (mkEnv (.ok [1]) (.ok [⟨"linear models"⟩])
        (.ok ["regression basics", "logistic regression"])) "regression"
      = .ok (.str "linear models",
             .list ["regression basics", "logistic regression"]) ∧
    PyVal.isStr (PyVal.list ["regression basics", "logistic regression"])
      = false :=
  ⟨rfl, rfl⟩

/-- C2 (amended): for every non-empty query, when the embedding call and
both stores succeed, `retrieve` returns without raising a pair of a
Python string (possibly empty) and a Python list of strings (possibly
empty), even when either store returns zero matches. -/
theorem retrieve_ok_pair_shape (env : RagEnv) (q : String) (v : List Rat)
    (rs : List QdrantPoint) (cs : List String)
    (_hq : q ≠ "") (hE : env.embed q = .ok v) (hV : env.vsearch v 5 = .ok rs)
    (hG : env.graph = .ok cs) :
    ∃ s l, retrieve env q = .ok (.str s, .list l) := by
  refine ⟨String.intercalate "\n" (rs.map (fun r => r.payloadText)),
    graphQuery cs q, ?_⟩
  simp [retrieve, hE, hV, hG]

/-- C2 witness: the amended claim at a concrete environment where both
stores succeed with zero matches. -/
theorem retrieve_ok_pair_shape_witness :
    ("xyzzynonsense" : String) ≠ "" ∧
    (∃ s l, retrieve (mkEnv (.ok [1]) (.ok []) (.ok [])) "xyzzynonsense"
        = .ok (.str s, .list l)) :=
  ⟨by decide,
   retrieve_ok_pair_shape (mkEnv (.ok [1]) (.ok []) (.ok [])) "xyzzynonsense"
     [1] [] [] (by decide) rfl rfl rfl⟩

/-- C3: the `retrieve` wrapper in `scripts.py` never terminates with an
answer. Its `async def retrieve` rebinds the very name it calls, so the
body recurses on itself forever: for every environment, every
continuation standing for the rest of the body (unpacking the contexts
and calling the generator), every recursion budget and every query, no
answer string is produced — in particular `generate_answer_with_mistral`
is never reached, contradicting the documented entry-point behaviour of
printing a generated answer. -/
theorem scripts_retrieve_never_answers :
    ∀ (env : RagEnv) (k : String → Option String) (fuel : Nat) (q : String),
      scriptsRetrieve env k fuel q = none := by
  intro env k fuel q
  induction fuel with
  | zero => rfl
  | succ n ih => simp [scriptsRetrieve, ih]

/-- C4: when the embedding call raises, `retrieve` propagates that
failure (tagged as the embedding stage, carrying the cause) and the
result is the same whatever the vector store and the graph store would
answer — neither store is consulted, and no context pair is produced for
a caller to generate from. -/
theorem retrieve_embedding_failure (env : RagEnv) (q e : String)
    (h : env.embed q = .error e) :
    ∀ vs gr, retrieve { env with vsearch := vs, graph := gr } q
      = .error (.embeddingFailure e) := by
  intro vs gr
  simp [retrieve, h]

/-- C4 witness: a concrete environment whose embedding provider is down,
instantiated with two different store behaviours. -/
theorem retrieve_embedding_failure_witness :
    (mkEnv (.error "provider down") (.ok []) (.ok [])).embed "what is regression"
      = .error "provider down" ∧
    retrieve { mkEnv (.error "provider down") (.ok []) (.ok []) with
        vsearch := fun _ _ => .ok [⟨"t"⟩], graph := .ok ["t"] } "what is regression"
      = .error (.embeddingFailure "provider down") :=
  ⟨rfl,
   retrieve_embedding_failure (mkEnv (.error "provider down") (.ok []) (.ok []))
     "what is regression" "provider down" rfl (fun _ _ => .ok [⟨"t"⟩]) (.ok ["t"])⟩

/-- C5: when the vector search succeeds, the vector context block is
exactly the payload texts of the returned hits joined with newline
separators, in the order the search returned them, with no deduplication
and no graph text mixed in; given that the client honours the requested
limit of 5, at most 5 texts are joined. -/
theorem retrieve_vector_context (env : RagEnv) (q : String) (v : List Rat)
    (rs : List QdrantPoint) (cs : List String)
    (hE : env.embed q = .ok v) (hV : env.vsearch v 5 = .ok rs)
    (hlen : rs.length ≤ 5) (hG : env.graph = .ok cs) :
    (retrieve env q).toOption.map Prod.fst
      = some (.str (String.intercalate "\n" (rs.map (fun r => r.payloadText)))) ∧
    (rs.map (fun r => r.payloadText)).length ≤ 5 := by
  have hret : retrieve env q
      = .ok (.str (String.intercalate "\n" (rs.map (fun r => r.payloadText))),
             .list (graphQuery cs q)) := by
    simp [retrieve, hE, hV, hG]
  constructor
  · rw [hret]
    rfl
  · simpa using hlen

/-- C5 witness: two concrete hits are joined with a newline, best match
first. -/
theorem retrieve_vector_context_witness :
    (retrieve (mkEnv (.ok [1]) (.ok [⟨"a chunk"⟩, ⟨"b chunk"⟩]) (.ok []))
        "regression").toOption.map Prod.fst
      = some (.str "a chunk\nb chunk") := by
  have h := (retrieve_vector_context
    (mkEnv (.ok [1]) (.ok [⟨"a chunk"⟩, ⟨"b chunk"⟩]) (.ok [])) "regression"
    [1] [⟨"a chunk"⟩, ⟨"b chunk"⟩] [] rfl rfl (by decide) rfl).1
  have hs : String.intercalate "\n"
      ([(⟨"a chunk"⟩ : QdrantPoint), ⟨"b chunk"⟩].map (fun r => r.payloadText))
      = "a chunk\nb chunk" := by decide
  rw [hs] at h
  exact h

/-- C6: the graph context block is the list of texts of at most 5 chunks
whose text contains the raw query string case-insensitively, and it is
computed from the raw query and the graph store state only: a second
environment with a different embedding provider and a different vector
store but the same graph store yields the identical graph context. -/
theorem retrieve_graph_context (env env2 : RagEnv) (q : String)
    (v v2 : List Rat) (rs rs2 : List QdrantPoint) (cs : List String)
    (hE : env.embed q = .ok v) (hV : env.vsearch v 5 = .ok rs)
    (hG : env.graph = .ok cs)
    (hE2 : env2.embed q = .ok v2) (hV2 : env2.vsearch v2 5 = .ok rs2)
    (hG2 : env2.graph = .ok cs) :
    (retrieve env q).toOption.map Prod.snd = some (.list (graphQuery cs q)) ∧
    (graphQuery cs q).length ≤ 5 ∧
    (∀ t ∈ graphQuery cs q, containsCI t q = true ∧ t ∈ cs) ∧
    (retrieve env2 q).toOption.map Prod.snd
      = (retrieve env q).toOption.map Prod.snd := by
  have hret : retrieve env q
      = .ok (.str (String.intercalate "\n" (rs.map (fun r => r.payloadText))),
             .list (graphQuery cs q)) := by
    simp [retrieve, hE, hV, hG]
  have hret2 : retrieve env2 q
      = .ok (.str (String.intercalate "\n" (rs2.map (fun r => r.payloadText))),
             .list (graphQuery cs q)) := by
    simp [retrieve, hE2, hV2, hG2]
  refine ⟨?_, graphQuery_length_le cs q, fun t ht => graphQuery_mem cs q t ht, ?_⟩
  · rw [hret]
    rfl
  · rw [hret, hret2]
    rfl

/-- C6 witness: the containment query is case-insensitive and unchanged
under swapping the embedding provider and the vector store. -/
theorem retrieve_graph_context_witness :
    (retrieve (mkEnv (.ok [1]) (.ok [⟨"x"⟩])
        (.ok ["Linear Regression intro", "clustering"])) "regression").toOption.map Prod.snd
      = some (.list ["Linear Regression intro"]) ∧
    (retrieve (mkEnv (.ok [2]) (.ok [])
        (.ok ["Linear Regression intro", "clustering"])) "regression").toOption.map Prod.snd
      = (retrieve (mkEnv (.ok [1]) (.ok [⟨"x"⟩])
        (.ok ["Linear Regression intro", "clustering"])) "regression").toOption.map Prod.snd := by
  have h := retrieve_graph_context
    (mkEnv (.ok [1]) (.ok [⟨"x"⟩]) (.ok ["Linear Regression intro", "clustering"]))
    (mkEnv (.ok [2]) (.ok []) (.ok ["Linear Regression intro", "clustering"]))
    "regression" [1] [2] [⟨"x"⟩] [] ["Linear Regression intro", "clustering"]
    rfl rfl rfl rfl rfl rfl
  have hg : graphQuery ["Linear Regression intro", "clustering"] "regression"
      = ["Linear Regression intro"] := by decide
  refine ⟨?_, h.2.2.2⟩
  rw [h.1, hg]

/-- Environment with concrete stores and a chosen chat completion
backend. -/
def mkEnvC (c : ChatRequest → Except String ChatResponse) : RagEnv :=
  { mkEnv (.ok [1]) (.ok []) (.ok []) with complete := c }

/-- C7: when the chat completion call fails, `generate_answer_with_mistral`
propagates the failure as a generation failure carrying the upstream
cause: the backend is consulted once on the single built request, there
is no internal retry, and no answer value is returned. -/
theorem generate_answer_backend_failure (env : RagEnv)
    (q mc nc m : String) (temp : Rat) (mt : Nat) (e : String)
    (h : env.complete (mistralRequest q mc nc m temp mt) = .error e) :
    generate_answer_with_mistral env q mc nc m temp mt
      = .error (.generationFailure e) ∧
    (generate_answer_with_mistral env q mc nc m temp mt).toOption = none := by
  have hg : generate_answer_with_mistral env q mc nc m temp mt
      = .error (.generationFailure e) := by
    simp [generate_answer_with_mistral, h]
  refine ⟨hg, ?_⟩
  rw [hg]
  rfl

/-- C7 witness: a backend that reports a quota error. -/
theorem generate_answer_backend_failure_witness :
    generate_answer_with_mistral (mkEnvC (fun _ => .error "quota exceeded"))
      "q" "vctx" "gctx" defaultModel defaultTemperature defaultMaxTokens
      = .error (.generationFailure "quota exceeded") :=
  (generate_answer_backend_failure (mkEnvC (fun _ => .error "quota exceeded"))
    "q" "vctx" "gctx" defaultModel defaultTemperature defaultMaxTokens
    "quota exceeded" rfl).1

/-- C8: with no optional arguments supplied, `generate_answer_with_mistral`
uses temperature 0.3 and a 300-token cap, sends exactly a two-role
prompt — one fixed system instruction and one user turn holding the two
labeled context blocks followed by the literal question — and on backend
success returns the response text stripped of surrounding whitespace. -/
theorem generate_answer_defaults_spec (env : RagEnv) (q mc nc : String)
    (resp : ChatResponse)
    (h : env.complete (mistralRequest q mc nc defaultModel defaultTemperature
        defaultMaxTokens) = .ok resp) :
    generateAnswerDefault env q mc nc = .ok (pyStrip resp.content) ∧
    defaultTemperature = 3 / 10 ∧
    defaultMaxTokens = 300 ∧
    (mistralRequest q mc nc defaultModel defaultTemperature defaultMaxTokens).messages
      = [ { role := "system", content := systemPrompt }
        , { role := "user", content := userPrompt q mc nc } ] ∧
    userPrompt q mc nc
      = "Based on the following contexts extracted from similar questions and graph data:\n---\nVector DB context:\n"
        ++ mc ++ "\n---\nNeo4j context:\n" ++ nc ++ "\n---\nQuestion:\n" ++ q
        ++ "\n\nProvide a concise, helpful answer." := by
  refine ⟨?_, rfl, rfl, rfl, rfl⟩
  simp [generateAnswerDefault, generate_answer_with_mistral, h]

/-- C8 witness: a concrete backend response is stripped of surrounding
whitespace. -/
theorem generate_answer_defaults_spec_witness :
    generateAnswerDefault (mkEnvC (fun _ => .ok { content := "  An answer.  " }))
      "What is overfitting?" "vec ctx" "graph ctx"
      = .ok "An answer." := by
  have h := (generate_answer_defaults_spec
    (mkEnvC (fun _ => .ok { content := "  An answer.  " }))
    "What is overfitting?" "vec ctx" "graph ctx" { content := "  An answer.  " } rfl).1
  have hs : pyStrip "  An answer.  " = "An answer." := by decide
  rw [hs] at h
  exact h

/-- C9: `retrieve` is deterministic in the store state: two calls with
the same query against environments whose embedding provider, vector
store and graph store behave identically return identical results,
context content and ordering of the vector results included. -/
theorem retrieve_deterministic (e1 e2 : RagEnv) (q : String)
    (hE : ∀ s, e1.embed s = e2.embed s)
    (hV : ∀ v n, e1.vsearch v n = e2.vsearch v n)
    (hG : e1.graph = e2.graph) :
    retrieve e1 q = retrieve e2 q := by
  simp only [retrieve, hE, hV, hG]

/-- C9 witness: two environments sharing stores (differing only in the
chat backend, which `retrieve` never consults) give equal results. -/
theorem retrieve_deterministic_witness :
    retrieve (mkEnvC (fun _ => .ok { content := "a" })) "regression"
      = retrieve (mkEnvC (fun _ => .error "down")) "regression" :=
  retrieve_deterministic (mkEnvC (fun _ => .ok { content := "a" }))
    (mkEnvC (fun _ => .error "down")) "regression"
    (fun _ => rfl) (fun _ _ => rfl) rfl

/-- C10: `retrieve` never validates its query argument: on the empty
string it still runs the full pipeline and returns normally, and since
every chunk text contains the empty string case-insensitively, the graph
context is simply the first 5 chunk texts of the store — non-empty
whenever the graph store is non-empty. -/
theorem retrieve_empty_query_no_validation (env : RagEnv) (v : List Rat)
    (rs : List QdrantPoint) (cs : List String)
    (hE : env.embed "" = .ok v) (hV : env.vsearch v 5 = .ok rs)
    (hG : env.graph = .ok cs) :
    retrieve env ""
      = .ok (.str (String.intercalate "\n" (rs.map (fun r => r.payloadText))),
             .list (cs.take 5)) ∧
    (cs ≠ [] → cs.take 5 ≠ []) := by
  constructor
  · simp [retrieve, hE, hV, hG, graphQuery_empty_query]
  · intro hcs
    cases cs with
    | nil => exact absurd rfl hcs
    | cons c t => simp

/-- C10 witness: with two arbitrary chunks stored, the empty query fills
the graph context with both of them. -/
theorem retrieve_empty_query_no_validation_witness :
    retrieve (mkEnv (.ok [1]) (.ok [⟨"x"⟩]) (.ok ["alpha", "beta"])) ""
      = .ok (.str "x", .list ["alpha", "beta"]) := by
  have h := (retrieve_empty_query_no_validation
    (mkEnv (.ok [1]) (.ok [⟨"x"⟩]) (.ok ["alpha", "beta"]))
    [1] [⟨"x"⟩] ["alpha", "beta"] rfl rfl rfl).1
  have hs : String.intercalate "\n" ([(⟨"x"⟩ : QdrantPoint)].map (fun r => r.payloadText))
      = "x" := by decide
  have ht : (["alpha", "beta"] : List String).take 5 = ["alpha", "beta"] := by decide
  rw [hs, ht] at h
  exact h
